import Mathlib

/-!
Verification of the CalRoute route-optimization core against its
natural-language specification.

The definitions below are a shallow embedding of the Python sources:

* `website/maps_utils.py` — travel-time cache (`_is_cached_and_valid`),
  mode suitability (`_should_use_mode_for_distance`,
  `_best_mode_for_distance`), the per-mode matrix pass (`_process_mode`),
  the matrix builder (`build_distance_matrix`) and the TSP wrapper
  (`solve_tsp`, in particular its no-solution fallback branch and its
  transit callback).
* `website/maps.py` — the alternative solver `solve_tsp_with_constraints`
  and its transit callback.
* `website/optimize_routes.py` — the scheduling phase of
  `run_optimization` (fixed calendar tasks first, then flexible tasks
  along the solved route with a travel-plus-buffer push).

Machine conventions: minutes and seconds are `Nat`; wall-clock instants
(minutes since midnight of the planning day) are `Int` so pushes past
midnight are representable; an unresolved/infinite matrix entry
(`float('inf')` in Python) is `none` in `Option Nat`; the process-wide
cache dictionary is a function `String → Option (Int × Nat)` from key to
(store timestamp, duration-in-minutes).
-/

namespace CalRoute

/-! ## Travel-time cache (`maps_utils.py` lines 14-39) -/

/-- `CACHE_EXPIRY = 7 * 24 * 60 * 60` seconds (one week). -/
def CACHE_EXPIRY : Int := 7 * 24 * 60 * 60

/-- The cache dictionary `_distance_cache`: key ↦ (timestamp, duration). -/
abbrev Cache : Type := String → Option (Int × Nat)

/-- `_get_cache_key(origin, destination, mode)`. -/
def getCacheKey (origin destination mode : String) : String :=
  origin ++ "|" ++ destination ++ "|" ++ mode

/-- `_is_cached_and_valid(cache_key)`: present and
`time.time() - timestamp < CACHE_EXPIRY`. -/
def isCachedAndValid (cache : Cache) (now : Int) (key : String) : Bool :=
  match cache key with
  | some (timestamp, _) => decide (now - timestamp < CACHE_EXPIRY)
  | none => false

/-- The read pattern used throughout `_process_mode`: gate the dictionary
read behind `_is_cached_and_valid` (`maps_utils.py` lines 126-127),
yielding the stored duration when valid and nothing otherwise. -/
def cacheLookup (cache : Cache) (now : Int) (key : String) : Option Nat :=
  if isCachedAndValid cache now key then
    match cache key with
    | some (_, duration) => some duration
    | none => none
  else none

/-! ## Mode-distance suitability (`maps_utils.py` lines 72-110) -/

/-- `SHORT_DISTANCE_THRESHOLD = 15` minutes. -/
def SHORT_DISTANCE_THRESHOLD : Nat := 15

/-- `MEDIUM_DISTANCE_THRESHOLD = 30` minutes. -/
def MEDIUM_DISTANCE_THRESHOLD : Nat := 30

/-- `_should_use_mode_for_distance(mode, distance_minutes)`. -/
def shouldUseModeForDistance (mode : String) (distanceMinutes : Nat) : Bool :=
  if mode = "walking" then decide (distanceMinutes ≤ SHORT_DISTANCE_THRESHOLD)
  else if mode = "bicycling" then decide (distanceMinutes ≤ MEDIUM_DISTANCE_THRESHOLD)
  else if mode = "transit" then decide (SHORT_DISTANCE_THRESHOLD ≤ distanceMinutes)
  else if mode = "driving" then decide (SHORT_DISTANCE_THRESHOLD ≤ distanceMinutes)
  else true

/-- Python substring containment `pat in s`, used by
`_best_mode_for_distance` on mode name strings. -/
def strContains (s pat : String) : Bool :=
  (List.range (s.toList.length + 1)).any
    (fun k => decide (((s.toList.drop k).take pat.toList.length) = pat.toList))

/-- `_best_mode_for_distance(mode, duration)`. -/
def bestModeForDistance (mode : String) (duration : Nat) : String :=
  if duration < 10 then
    if strContains mode "walking" then "walking"
    else if strContains mode "bike" then "bike"
    else mode
  else if duration < 30 then
    if strContains mode "bike" then "bike"
    else if strContains mode "bus_train" then "bus_train"
    else mode
  else mode

/-! ## Per-mode matrix pass (`maps_utils.py` `_process_mode`, lines 112-207) -/

/-- Travel-time matrix entries: `none` is Python's `float('inf')`. -/
abbrev Mat : Type := Nat → Nat → Option Nat

/-- The parallel "which mode won" matrix (initialised to `''`). -/
abbrev ModeMat : Type := Nat → Nat → String

/-- Point update of a duration matrix (`final_matrix[i][j] = v`). -/
def matUpdate (m : Mat) (i j : Nat) (v : Option Nat) : Mat :=
  fun a b => if a = i ∧ b = j then v else m a b

/-- Point update of a mode matrix (`mode_matrix[i][j] = v`). -/
def modeUpdate (m : ModeMat) (i j : Nat) (v : String) : ModeMat :=
  fun a b => if a = i ∧ b = j then v else m a b

/-- Python `duration < final_matrix[i][j]` where the entry may be `inf`. -/
def durLt (d : Nat) (cur : Option Nat) : Bool :=
  match cur with
  | none => true
  | some c => decide (d < c)

/-- Minimum of two possibly-infinite durations. -/
def ominOpt : Option Nat → Option Nat → Option Nat
  | some x, some y => some (min x y)
  | some x, none => some x
  | none, b => b

/-- Order on possibly-infinite durations: `none` is `+∞`. -/
def ole : Option Nat → Option Nat → Prop
  | _, none => True
  | none, some _ => False
  | some x, some y => x ≤ y

/-- Pointwise `ole` between two duration matrices. -/
def matLe (m1 m2 : Mat) : Prop := ∀ i j, ole (m1 i j) (m2 i j)

/-- The row-major list of index pairs visited by the nested
`for i in range(n): for j in range(n)` loops. -/
def pairList (n : Nat) : List (Nat × Nat) :=
  (List.range n).flatMap (fun i => (List.range n).map (fun j => (i, j)))

/-- One iteration of the cache pass of `_process_mode`
(lines 119-136): the diagonal is zeroed, and a valid cached duration
that suits the mode and improves on the current entry is merged in,
recording `_best_mode_for_distance` in the mode matrix. -/
def cacheStep (locations : List String) (googleMode : String) (cache : Cache)
    (now : Int) (st : Mat × ModeMat) (p : Nat × Nat) : Mat × ModeMat :=
  if p.1 = p.2 then (matUpdate st.1 p.1 p.2 (some 0), st.2)
  else
    match cacheLookup cache now
        (getCacheKey (locations.getD p.1 "") (locations.getD p.2 "") googleMode) with
    | some duration =>
        if shouldUseModeForDistance googleMode duration ∧ durLt duration (st.1 p.1 p.2) then
          (matUpdate st.1 p.1 p.2 (some duration),
           modeUpdate st.2 p.1 p.2 (bestModeForDistance googleMode duration))
        else st
    | none => st

/-- The whole cache pass over all `n × n` index pairs. -/
def cachePass (locations : List String) (googleMode : String) (cache : Cache)
    (now : Int) (st : Mat × ModeMat) : Mat × ModeMat :=
  (pairList locations.length).foldl (cacheStep locations googleMode cache now) st

/-- `missing_data` as computed by the cache pass: some off-diagonal pair
is not validly cached. -/
def missingData (locations : List String) (googleMode : String) (cache : Cache)
    (now : Int) : Bool :=
  (pairList locations.length).any (fun p =>
    decide (p.1 ≠ p.2) &&
      ! isCachedAndValid cache now
          (getCacheKey (locations.getD p.1 "") (locations.getD p.2 "") googleMode))

/-- Python `locations.index(s)`: index of the first occurrence. -/
def listIndexOf : List String → String → Option Nat
  | [], _ => none
  | x :: xs, s => if x = s then some 0 else (listIndexOf xs s).map (fun k => k + 1)

/-- One element of a Google distance-matrix response: the origin and
destination addresses of the batch row/column, whether the element's
status was `'OK'`, and the reported duration in seconds. -/
structure ApiEntry where
  origin : String
  destination : String
  ok : Bool
  durationSeconds : Nat
deriving DecidableEq

/-- One iteration of the API pass of `_process_mode` (lines 173-201):
same-location pairs are skipped, an `'OK'` element is floored to minutes
and written to the cache, and when both addresses occur in `locations`
and the mode suits the distance, the matrix entry is improved in place
(the mode matrix records the application-level mode name here). -/
def apiStep (locations : List String) (appMode googleMode : String) (now : Int)
    (st : Mat × ModeMat × Cache) (e : ApiEntry) : Mat × ModeMat × Cache :=
  if e.origin = e.destination then st
  else if e.ok then
    let durationMinutes := e.durationSeconds / 60
    let cache2 : Cache := fun k =>
      if k = getCacheKey e.origin e.destination googleMode then some (now, durationMinutes)
      else st.2.2 k
    match listIndexOf locations e.origin, listIndexOf locations e.destination with
    | some i, some j =>
        if shouldUseModeForDistance googleMode durationMinutes ∧
            durLt durationMinutes (st.1 i j) then
          (matUpdate st.1 i j (some durationMinutes),
           modeUpdate st.2.1 i j appMode, cache2)
        else (st.1, st.2.1, cache2)
    | _, _ => (st.1, st.2.1, cache2)
  else st

/-- `mode_mapping` (`maps_utils.py` lines 231-237): application mode name
to Google Maps mode name. -/
def modeMapping (m : String) : Option String :=
  if m = "car" then some "driving"
  else if m = "bike" then some "bicycling"
  else if m = "bus_train" then some "transit"
  else if m = "walking" then some "walking"
  else if m = "rideshare" then some "driving"
  else none

/-- `_process_mode(locations, mode, mode_mapping, final_matrix,
mode_matrix)`.  The cache pass always runs; the batched API calls run
only when the cache pass saw missing data.  `api` is the flattened list
of response elements the provider returned for this mode (an exception
or timeout mid-run corresponds to a shorter list). -/
def processMode (locations : List String) (mode : String) (now : Int)
    (api : List ApiEntry) (fm : Mat) (mm : ModeMat) (cache : Cache) :
    Mat × ModeMat × Cache :=
  let googleMode := (modeMapping mode).getD "driving"
  let st1 := cachePass locations googleMode cache now (fm, mm)
  if missingData locations googleMode cache now then
    api.foldl (apiStep locations mode googleMode now) (st1.1, st1.2, cache)
  else (st1.1, st1.2, cache)

/-! ## `build_distance_matrix` (`maps_utils.py` lines 209-248)

The live code initialises both matrices, runs `_process_mode` for every
requested mode, zeroes the diagonal and returns.  The block replacing
remaining `inf` entries with `999999` (lines 250-295) sits after the
`return` statement and is unreachable, so it is not part of the
embedding. -/

/-- `build_distance_matrix(locations, modes)`.  `api` supplies the
provider responses per application mode. -/
def buildDistanceMatrix (locations : List String) (modes : List String)
    (cache : Cache) (now : Int) (api : String → List ApiEntry) : Mat × ModeMat :=
  let n := locations.length
  let initFm : Mat := fun _ _ => none
  let initMm : ModeMat := fun _ _ => ""
  let res := modes.foldl
    (fun st m => processMode locations m now (api m) st.1 st.2.1 st.2.2)
    (initFm, initMm, cache)
  (fun i j => if i = j ∧ i < n then some 0 else res.1 i j, res.2.1)

/-- The all-absent cache. -/
def emptyCache : Cache := fun _ => none

/-- A provider that returns no elements for any mode. -/
def emptyApi : String → List ApiEntry := fun _ => []

/-! ## Solver transit callbacks

`maps_utils.py` `solve_tsp` pre-computes `distance_lookup` over solver
indices `0 .. num_locations*num_vehicles + 9` (lines 333-350) and its
`time_callback` (lines 352-364) returns the looked-up value with default
`999999`.  `idxToNode` stands for OR-tools' `index_to_node_map`
(`manager.NodeToIndex` inverted); `num_vehicles` is 1. -/

/-- `distance_lookup[(from_idx, to_idx)]` as populated by
`maps_utils.solve_tsp`: the matrix value when both indices map to
in-bounds nodes, `999999` otherwise. -/
def mapsUtilsDistanceLookup (idxToNode : Nat → Option Nat)
    (distanceMatrix : List (List Nat)) (fromIdx toIdx : Nat) : Nat :=
  match idxToNode fromIdx, idxToNode toIdx with
  | some fromNode, some toNode =>
      if fromNode < distanceMatrix.length ∧ toNode < (distanceMatrix.getD 0 []).length then
        (distanceMatrix.getD fromNode []).getD toNode 999999
      else 999999
  | _, _ => 999999

/-- `time_callback(from_idx, to_idx)` of `maps_utils.solve_tsp`:
`distance_lookup.get(key, 999999)`, where the lookup dictionary only
covers indices below `num_locations + 10`. -/
def mapsUtilsTimeCallback (numLocations : Nat) (idxToNode : Nat → Option Nat)
    (distanceMatrix : List (List Nat)) (fromIdx toIdx : Nat) : Nat :=
  if fromIdx < numLocations + 10 ∧ toIdx < numLocations + 10 then
    mapsUtilsDistanceLookup idxToNode distanceMatrix fromIdx toIdx
  else 999999

/-- `time_callback(from_index, to_index)` of
`maps.solve_tsp_with_constraints` (lines 101-105): travel time plus the
service duration of the node being left.  Python indexes the lists
directly; the theorems only use in-bounds nodes, where the `getD`
defaults are irrelevant. -/
def mapsPyTimeCallback (distanceMatrix : List (List Nat)) (taskDurations : List Nat)
    (idxToNode : Nat → Option Nat) (fromIdx toIdx : Nat) : Nat :=
  match idxToNode fromIdx, idxToNode toIdx with
  | some fromNode, some toNode =>
      (distanceMatrix.getD fromNode []).getD toNode 0 + taskDurations.getD fromNode 0
  | _, _ => 0

/-! ## The no-solution branch of `maps_utils.solve_tsp` (lines 487-544) -/

/-- The 4-tuple returned by `solve_tsp`. -/
structure TspResult where
  route : List Nat
  startTimes : List Nat
  totalTime : Nat
  travelModes : List String
deriving DecidableEq

/-- Fallback mode choice for one route segment (lines 501-536).  Matrix
entries may be `inf` (`none`), in which case every `<` comparison is
false and the rideshare branch is reached. -/
def fallbackModeForSegment (preferredModes : List String)
    (distanceMatrix : List (List (Option Nat))) (fromIdx toIdx : Nat) : String :=
  if ¬ distanceMatrix.isEmpty ∧ fromIdx < distanceMatrix.length ∧
      toIdx < (distanceMatrix.getD 0 []).length then
    match (distanceMatrix.getD fromIdx []).getD toIdx none with
    | some distanceKm =>
        if distanceKm < 1 ∧ preferredModes.contains "walking" then "walking"
        else if distanceKm < 5 ∧ preferredModes.contains "bike" then "bike"
        else if distanceKm < 12 ∧ preferredModes.contains "bus_train" then "bus_train"
        else if preferredModes.contains "rideshare" then "rideshare"
        else preferredModes.getD 0 ""
    | none =>
        if preferredModes.contains "rideshare" then "rideshare"
        else preferredModes.getD 0 ""
  else preferredModes.getD 0 ""

/-- What `solve_tsp` returns when `routing.SolveWithParameters` produced
no solution: not an error, but a fallback schedule visiting every node
in index order with synthetic start times `480 + 60·i`, total time `0`
and heuristically chosen modes. -/
def solveTspNoSolution (numLocations : Nat)
    (distanceMatrix : List (List (Option Nat))) (preferredModes : List String) :
    TspResult :=
  let fallbackStartTime := 8 * 60
  let fallbackRoute := List.range numLocations
  let fallbackTimes := (List.range numLocations).map (fun i => fallbackStartTime + i * 60)
  let fallbackModes :=
    if ¬ preferredModes.isEmpty then
      (List.range (fallbackRoute.length - 1)).map (fun i =>
        fallbackModeForSegment preferredModes distanceMatrix
          (fallbackRoute.getD i 0) (fallbackRoute.getD (i + 1) 0))
    else (List.range (fallbackRoute.length - 1)).map (fun _ => "walking")
  ⟨fallbackRoute, fallbackTimes, 0, fallbackModes⟩

/-! ## The scheduling phase of `run_optimization`
(`optimize_routes.py` lines 217-552)

Wall-clock instants are minutes since midnight of the planning day
(`today`), as `Int` — a start pushed past midnight lands above `1439`.
Fixed-time calendar tasks are written out first with their original
times (lines 222-416); flexible tasks are then walked along the solved
route (lines 419-550): for each route position the solver minute is the
suggested start, and when a previously scheduled task exists the start
is pushed to at least its latest end plus travel time plus a 15-minute
buffer. -/

/-- The fields of a `RawTask` row the scheduling phase reads.  A task is
fixed-time when `source == 'google_calendar'` and both original times
are present. -/
structure TaskM where
  sourceCalendar : Bool
  startTime : Option Int
  endTime : Option Int
deriving DecidableEq

/-- One `ScheduledTask` row as created by the scheduling phase. -/
structure SlotM where
  isFixed : Bool
  node : Option Nat
  start : Int
  stop : Int
deriving DecidableEq

/-- The latest `scheduled_end_time` among already-created slots — the
`prev_end_time` scan of lines 438-442. -/
def maxEnd : List SlotM → Option Int
  | [] => none
  | s :: rest =>
    match maxEnd rest with
    | none => some s.stop
    | some v => some (max s.stop v)

/-- The fixed-task pass (lines 222-416): every calendar task with
recorded original times is scheduled at exactly those times.  (Transit
mode and travel ETA are also stored but play no role in the claims.) -/
def fixedSlots (tasks : List TaskM) : List SlotM :=
  tasks.filterMap (fun t =>
    match t.sourceCalendar, t.startTime, t.endTime with
    | true, some s, some e => some ⟨true, none, s, e⟩
    | _, _, _ => none)

/-- One iteration of the flexible-task loop (lines 419-550) at route
position `i` visiting node `idx`.  Depot positions are skipped; the
solver minute is the suggested start; when the push precondition of
line 434 holds and a previous slot exists, the start is moved up to
`prev_end + travel + 15` if it was earlier; the end preserves the
task duration.  (Python would raise on `mins ≥ 1440` when building the
`time` object; solver minutes are pre-cleaned to `0..1440`.) -/
def flexStep (nLoc : Nat) (durations startTimes travelTimes : List Nat)
    (acc : List SlotM) (p : Nat × Nat) : List SlotM :=
  if p.2 = 0 ∨ p.2 = nLoc - 1 then acc
  else
    let dur : Nat := durations.getD p.2 0
    let mins : Nat := startTimes.getD p.2 0
    let suggested0 : Int := (mins : Int)
    let suggested : Int :=
      if 0 < p.1 ∧ travelTimes ≠ [] ∧ p.1 - 1 < travelTimes.length then
        match maxEnd acc with
        | some prevEnd =>
            let trans : Int := (travelTimes.getD (p.1 - 1) 0 : Int) + 15
            if suggested0 < prevEnd + trans then prevEnd + trans else suggested0
        | none => suggested0
      else suggested0
    acc ++ [⟨false, some p.2, suggested, suggested + dur⟩]

/-- The full scheduling phase: fixed calendar slots first, then the
flexible-task loop over `enumerate(route)`. -/
def runSlots (tasks : List TaskM) (nLoc : Nat) (route : List Nat)
    (startTimes durations travelTimes : List Nat) : List SlotM :=
  route.enum.foldl (flexStep nLoc durations startTimes travelTimes) (fixedSlots tasks)

/-- Two slots overlap when neither ends at or before the other starts. -/
def slotsOverlap (a b : SlotM) : Prop :=
  ¬ (a.stop ≤ b.start ∨ b.stop ≤ a.start)

/-- Ordered disjointness modulo fixed slots: a later-created flexible
slot starts at or after the end of every earlier slot. -/
def slotR (a b : SlotM) : Prop := b.isFixed = false → a.stop ≤ b.start

/-! ## Claim C9 — cache TTL semantics -/

/-- Claim C9: for every (origin, destination, mode) cache key, a stored
travel duration is returned by a cache lookup if and only if the time
elapsed since it was stored is strictly less than the 7-day TTL; an
entry that is absent or whose age is at or beyond the TTL is treated as
absent. -/
theorem cacheLookup_ttl_iff (cache : Cache) (now : Int) (key : String) (d : Nat) :
    cacheLookup cache now key = some d ↔
      ∃ ts : Int, cache key = some (ts, d) ∧ now - ts < CACHE_EXPIRY := by
  unfold cacheLookup isCachedAndValid
  cases h : cache key with
  | none => simp [h]
  | some p =>
    obtain ⟨ts, dur⟩ := p
    by_cases hlt : now - ts < CACHE_EXPIRY
    · simp [h, hlt]
      constructor
      · rintro rfl
        exact ⟨ts, ⟨rfl, rfl⟩, hlt⟩
      · rintro ⟨ts', ⟨rfl, rfl⟩, _⟩
        rfl
    · simp [h, hlt]
      intro _
      exact Int.not_lt.mp hlt

/-! ## Claim C7 — mode-distance suitability -/

/-- Claim C7 counterexample: the claim says transit and driving are
suitable for every duration, but `_should_use_mode_for_distance`
rejects both below the short-distance threshold. -/
theorem shouldUseMode_short_counterexample :
    shouldUseModeForDistance "driving" 10 = false ∧
    shouldUseModeForDistance "transit" 10 = false := by
  decide

/-- Claim C7 (amended): walking is suitable only for durations at or
below the short threshold (15), cycling only at or below the medium
threshold (30), and transit and driving only at or above the short
threshold — not for every duration; and the cache pass merges each
suitable observed duration into the matrix by minimum. -/
theorem shouldUseMode_thresholds_and_min_merge :
    (∀ d : Nat,
      shouldUseModeForDistance "walking" d = decide (d ≤ 15) ∧
      shouldUseModeForDistance "bicycling" d = decide (d ≤ 30) ∧
      shouldUseModeForDistance "transit" d = decide (15 ≤ d) ∧
      shouldUseModeForDistance "driving" d = decide (15 ≤ d)) ∧
    (∀ (locations : List String) (gm : String) (cache : Cache) (now : Int)
        (st : Mat × ModeMat) (p : Nat × Nat),
      (cacheStep locations gm cache now st p).1 p.1 p.2 =
        if p.1 = p.2 then some 0
        else
          match cacheLookup cache now
              (getCacheKey (locations.getD p.1 "") (locations.getD p.2 "") gm) with
          | some dur =>
              if shouldUseModeForDistance gm dur then ominOpt (some dur) (st.1 p.1 p.2)
              else st.1 p.1 p.2
          | none => st.1 p.1 p.2) := by
  constructor
  · intro d
    refine ⟨?_, ?_, ?_, ?_⟩ <;>
      simp [shouldUseModeForDistance, SHORT_DISTANCE_THRESHOLD, MEDIUM_DISTANCE_THRESHOLD]
  · intro locations gm cache now st p
    unfold cacheStep
    by_cases hdiag : p.1 = p.2
    · simp [hdiag, matUpdate]
    · simp only [hdiag, if_false]
      cases hl : cacheLookup cache now
          (getCacheKey (locations.getD p.1 "") (locations.getD p.2 "") gm) with
      | none => simp
      | some dur =>
        by_cases hsuit : shouldUseModeForDistance gm dur = true
        · cases hcur : st.1 p.1 p.2 with
          | none =>
            simp [hsuit, hcur, durLt, matUpdate, ominOpt]
          | some c =>
            by_cases hlt : dur < c
            · have : durLt dur (some c) = true := by simp [durLt, hlt]
              simp [hsuit, hcur, this, matUpdate, ominOpt, Nat.min_eq_left (Nat.le_of_lt hlt)]
            · have : durLt dur (some c) = false := by simp [durLt, hlt]
              simp [hsuit, hcur, this, ominOpt, Nat.min_eq_right (Nat.le_of_not_lt hlt)]
        · have hs : shouldUseModeForDistance gm dur = false := by
            simpa using hsuit
          simp [hs]

/-! ## Claim C4 — arc cost and dwell time -/

/-- Claim C4 counterexample: in `maps_utils.solve_tsp` the transit
callback returns the bare matrix value; at node 1 with service duration
30 it differs from `matrix[1][0] + d[1]`, the claimed arc cost. -/
theorem mapsUtils_callback_no_dwell_counterexample :
    mapsUtilsTimeCallback 2 (fun k => if k < 2 then some k else none)
        [[0, 7], [5, 0]] 1 0 ≠
      ([[0, 7], [5, 0]].getD 1 []).getD 0 0 + [0, 30].getD 1 0 := by
  decide

/-- Two in-bounds reads of the same list cell agree whatever the
default. -/
theorem getD_default_irrel {α : Type} (l : List α) (n : Nat) (h : n < l.length)
    (a b : α) : l.getD n a = l.getD n b := by
  rw [List.getD_eq_getElem l a h, List.getD_eq_getElem l b h]

/-- Claim C4 (amended): the dwell-time arc cost holds only for
`solve_tsp_with_constraints` in `maps.py`, whose callback equals the
`maps_utils.solve_tsp` callback plus the service duration `d[i]` of the
node being left; the production `solve_tsp` callback is the travel time
`matrix[i][j]` alone. -/
theorem arcCost_dwell_contrast (numLocations : Nat) (idxToNode : Nat → Option Nat)
    (dm : List (List Nat)) (durations : List Nat) (f t fn tn : Nat)
    (hf : idxToNode f = some fn) (ht : idxToNode t = some tn)
    (hfb : f < numLocations + 10) (htb : t < numLocations + 10)
    (hfn : fn < dm.length) (htn0 : tn < (dm.getD 0 []).length)
    (htn : tn < (dm.getD fn []).length) :
    mapsUtilsTimeCallback numLocations idxToNode dm f t =
      (dm.getD fn []).getD tn 999999 ∧
    mapsPyTimeCallback dm durations idxToNode f t =
      mapsUtilsTimeCallback numLocations idxToNode dm f t + durations.getD fn 0 := by
  have hcb : mapsUtilsTimeCallback numLocations idxToNode dm f t =
      (dm.getD fn []).getD tn 999999 := by
    unfold mapsUtilsTimeCallback mapsUtilsDistanceLookup
    rw [if_pos ⟨hfb, htb⟩, hf, ht]
    exact if_pos ⟨hfn, htn0⟩
  refine ⟨hcb, ?_⟩
  have hpy : mapsPyTimeCallback dm durations idxToNode f t =
      (dm.getD fn []).getD tn 0 + durations.getD fn 0 := by
    unfold mapsPyTimeCallback
    rw [hf, ht]
  rw [hpy, hcb, getD_default_irrel (dm.getD fn []) tn htn 0 999999]

/-- Claim C4 witness. -/
theorem arcCost_dwell_contrast_witness :
    mapsUtilsTimeCallback 2 (fun k => if k < 2 then some k else none)
        [[0, 7], [5, 0]] 1 0 =
      ([[0, 7], [5, 0]].getD 1 []).getD 0 999999 ∧
    mapsPyTimeCallback [[0, 7], [5, 0]] [0, 30]
        (fun k => if k < 2 then some k else none) 1 0 =
      mapsUtilsTimeCallback 2 (fun k => if k < 2 then some k else none)
        [[0, 7], [5, 0]] 1 0 + [0, 30].getD 1 0 :=
  arcCost_dwell_contrast 2 (fun k => if k < 2 then some k else none)
    [[0, 7], [5, 0]] [0, 30] 1 0 1 0 rfl rfl (by decide) (by decide)
    (by decide) (by decide) (by decide)

/-! ## Claim C1 — behaviour when the solver finds no tour -/

/-- Claim C1 counterexample: with two locations and no solver solution,
`solve_tsp` returns a non-empty fallback route with synthetic arrival
times instead of signalling infeasibility (`run_optimization` treats
only an empty route as failure). -/
theorem solveTsp_fallback_counterexample :
    (solveTspNoSolution 2 [[some 0, some 9], [some 9, some 0]] ["car"]).route ≠ [] ∧
    (solveTspNoSolution 2 [[some 0, some 9], [some 9, some 0]] ["car"]).startTimes =
      [480, 540] := by
  decide

/-- Claim C1 (amended): when the underlying solver returns no solution,
`solve_tsp` does not report infeasibility to its caller: for any input
with at least one location it returns a fallback schedule that visits
every node in index order with synthetic start times `480 + 60·i` and
total travel time 0, so the empty-route failure signal is never
produced. -/
theorem solveTspNoSolution_returns_fallback (numLocations : Nat)
    (dm : List (List (Option Nat))) (pm : List String) (h : 0 < numLocations) :
    (solveTspNoSolution numLocations dm pm).route ≠ [] ∧
    (solveTspNoSolution numLocations dm pm).route = List.range numLocations ∧
    (solveTspNoSolution numLocations dm pm).startTimes =
      (List.range numLocations).map (fun i => 480 + i * 60) ∧
    (solveTspNoSolution numLocations dm pm).totalTime = 0 := by
  refine ⟨?_, rfl, rfl, rfl⟩
  have hr : (solveTspNoSolution numLocations dm pm).route = List.range numLocations := rfl
  rw [hr]
  simp only [ne_eq, List.range_eq_nil]
  omega

/-- Claim C1 witness. -/
theorem solveTspNoSolution_returns_fallback_witness :
    (solveTspNoSolution 3 [] []).route ≠ [] ∧
    (solveTspNoSolution 3 [] []).route = List.range 3 ∧
    (solveTspNoSolution 3 [] []).startTimes =
      (List.range 3).map (fun i => 480 + i * 60) ∧
    (solveTspNoSolution 3 [] []).totalTime = 0 :=
  solveTspNoSolution_returns_fallback 3 [] [] (by decide)

/-! ## Order and fold lemmas for the matrix passes -/

theorem ole_refl (a : Option Nat) : ole a a := by
  cases a <;> simp [ole]

theorem ole_trans {a b c : Option Nat} (h1 : ole a b) (h2 : ole b c) : ole a c := by
  cases a <;> cases b <;> cases c <;> simp_all [ole]
  omega

theorem ole_some_zero (b : Option Nat) : ole (some 0) b := by
  cases b <;> simp [ole]

theorem durLt_ole {d : Nat} {cur : Option Nat} (h : durLt d cur = true) :
    ole (some d) cur := by
  cases cur with
  | none => simp [ole]
  | some c =>
    simp [durLt] at h
    simp [ole]
    omega

theorem matLe_refl (m : Mat) : matLe m m := fun _ _ => ole_refl _

theorem matLe_trans {m1 m2 m3 : Mat} (h1 : matLe m1 m2) (h2 : matLe m2 m3) :
    matLe m1 m3 := fun i j => ole_trans (h1 i j) (h2 i j)

/-- A fold whose every step preserves a state predicate preserves it. -/
theorem foldl_preserve {S β : Type} (P : S → Prop) (f : S → β → S)
    (hf : ∀ st b, P st → P (f st b)) :
    ∀ (l : List β) (st : S), P st → P (l.foldl f st) := by
  intro l
  induction l with
  | nil => intro st h; exact h
  | cons x xs ih => intro st h; exact ih (f st x) (hf st x h)

/-- A fold each of whose steps only lowers the matrix component lowers
it overall. -/
theorem foldl_matLe {S β : Type} (proj : S → Mat) (f : S → β → S)
    (hf : ∀ st b, matLe (proj (f st b)) (proj st)) :
    ∀ (l : List β) (st : S), matLe (proj (l.foldl f st)) (proj st) := by
  intro l
  induction l with
  | nil => intro st; exact matLe_refl _
  | cons x xs ih => intro st; exact matLe_trans (ih (f st x)) (hf st x)

theorem matUpdate_ole (m : Mat) (i j : Nat) (v : Option Nat) (h : ole v (m i j)) :
    matLe (matUpdate m i j v) m := by
  intro a b
  unfold matUpdate
  by_cases hab : a = i ∧ b = j
  · obtain ⟨rfl, rfl⟩ := hab
    rw [if_pos ⟨rfl, rfl⟩]
    exact h
  · rw [if_neg hab]
    exact ole_refl _

theorem cacheStep_matLe (locations : List String) (googleMode : String)
    (cache : Cache) (now : Int) (st : Mat × ModeMat) (p : Nat × Nat) :
    matLe (cacheStep locations googleMode cache now st p).1 st.1 := by
  unfold cacheStep
  by_cases hdiag : p.1 = p.2
  · rw [if_pos hdiag]
    exact matUpdate_ole st.1 p.1 p.2 (some 0) (ole_some_zero _)
  · rw [if_neg hdiag]
    cases hl : cacheLookup cache now
        (getCacheKey (locations.getD p.1 "") (locations.getD p.2 "") googleMode) with
    | none => exact matLe_refl _
    | some dur =>
      by_cases hc : shouldUseModeForDistance googleMode dur = true ∧
          durLt dur (st.1 p.1 p.2) = true
      · show matLe (if shouldUseModeForDistance googleMode dur ∧
            durLt dur (st.1 p.1 p.2) then _ else st).1 st.1
        rw [if_pos hc]
        exact matUpdate_ole st.1 p.1 p.2 (some dur) (durLt_ole hc.2)
      · show matLe (if shouldUseModeForDistance googleMode dur ∧
            durLt dur (st.1 p.1 p.2) then _ else st).1 st.1
        rw [if_neg hc]
        exact matLe_refl _

theorem apiStep_matLe (locations : List String) (appMode googleMode : String)
    (now : Int) (st : Mat × ModeMat × Cache) (e : ApiEntry) :
    matLe (apiStep locations appMode googleMode now st e).1 st.1 := by
  unfold apiStep
  split
  · exact matLe_refl _
  · split
    · split
      · dsimp only
        split
        · rename_i hc
          exact matUpdate_ole _ _ _ _ (durLt_ole hc.2)
        · exact matLe_refl _
      · exact matLe_refl _
    · exact matLe_refl _

/-- First-occurrence indices are faithful: the element at the returned
index is the searched string. -/
theorem listIndexOf_getD (l : List String) (s : String) :
    ∀ k, listIndexOf l s = some k → l.getD k "" = s := by
  induction l with
  | nil => intro k h; simp [listIndexOf] at h
  | cons x xs ih =>
    intro k h
    unfold listIndexOf at h
    by_cases hx : x = s
    · rw [if_pos hx] at h
      obtain rfl : 0 = k := Option.some.inj h
      simpa using hx
    · rw [if_neg hx] at h
      rw [Option.map_eq_some'] at h
      obtain ⟨k', hk', rfl⟩ := h
      simpa using ih k' hk'

theorem pairList_mem (n i j : Nat) : (i, j) ∈ pairList n ↔ i < n ∧ j < n := by
  simp only [pairList, List.mem_flatMap, List.mem_map, List.mem_range, Prod.mk.injEq]
  constructor
  · rintro ⟨a, ha, b, hb, rfl, rfl⟩
    exact ⟨ha, hb⟩
  · rintro ⟨hi, hj⟩
    exact ⟨i, hi, j, hj, rfl, rfl⟩

/-- Once a diagonal entry is zero, a cache-pass step keeps it zero. -/
theorem cacheStep_diag_preserve (locations : List String) (googleMode : String)
    (cache : Cache) (now : Int) (st : Mat × ModeMat) (p : Nat × Nat) (i : Nat)
    (h : st.1 i i = some 0) :
    (cacheStep locations googleMode cache now st p).1 i i = some 0 := by
  unfold cacheStep
  by_cases hdiag : p.1 = p.2
  · rw [if_pos hdiag]
    show matUpdate st.1 p.1 p.2 (some 0) i i = some 0
    unfold matUpdate
    by_cases hab : i = p.1 ∧ i = p.2
    · rw [if_pos hab]
    · rw [if_neg hab]
      exact h
  · rw [if_neg hdiag]
    cases hl : cacheLookup cache now
        (getCacheKey (locations.getD p.1 "") (locations.getD p.2 "") googleMode) with
    | none => exact h
    | some dur =>
      by_cases hc : shouldUseModeForDistance googleMode dur = true ∧
          durLt dur (st.1 p.1 p.2) = true
      · show (if shouldUseModeForDistance googleMode dur ∧
            durLt dur (st.1 p.1 p.2) then
            (matUpdate st.1 p.1 p.2 (some dur),
             modeUpdate st.2 p.1 p.2 (bestModeForDistance googleMode dur))
          else st).1 i i = some 0
        rw [if_pos hc]
        show matUpdate st.1 p.1 p.2 (some dur) i i = some 0
        unfold matUpdate
        by_cases hab : i = p.1 ∧ i = p.2
        · exact absurd (hab.1 ▸ hab.2) hdiag
        · rw [if_neg hab]
          exact h
      · show (if shouldUseModeForDistance googleMode dur ∧
            durLt dur (st.1 p.1 p.2) then
            (matUpdate st.1 p.1 p.2 (some dur),
             modeUpdate st.2 p.1 p.2 (bestModeForDistance googleMode dur))
          else st).1 i i = some 0
        rw [if_neg hc]
        exact h

/-- After folding the cache pass over a pair list containing `(i, i)`
(or starting from a state whose diagonal entry is already zero), the
diagonal entry is zero. -/
theorem cacheFold_diag (locations : List String) (googleMode : String)
    (cache : Cache) (now : Int) (i : Nat) :
    ∀ (l : List (Nat × Nat)) (st : Mat × ModeMat),
      ((i, i) ∈ l ∨ st.1 i i = some 0) →
      ((l.foldl (cacheStep locations googleMode cache now) st).1 i i = some 0) := by
  intro l
  induction l with
  | nil =>
    intro st h
    rcases h with h | h
    · simp at h
    · exact h
  | cons p rest ih =>
    intro st h
    by_cases hp : p = (i, i)
    · subst hp
      refine ih _ (Or.inr ?_)
      unfold cacheStep
      simp [matUpdate]
    · rcases h with h | h
      · rcases List.mem_cons.mp h with h | h
        · exact absurd h.symm hp
        · exact ih _ (Or.inl h)
      · exact ih _ (Or.inr (cacheStep_diag_preserve _ _ _ _ _ _ _ h))

/-- The API pass never touches the diagonal: the two looked-up indices
of an admitted element are distinct. -/
theorem apiStep_diag_preserve (locations : List String) (appMode googleMode : String)
    (now : Int) (st : Mat × ModeMat × Cache) (e : ApiEntry) (i : Nat)
    (h : st.1 i i = some 0) :
    (apiStep locations appMode googleMode now st e).1 i i = some 0 := by
  unfold apiStep
  split
  · exact h
  · rename_i hod
    split
    · split
      · rename_i a b h1 h2
        have hab : a ≠ b := by
          intro hcon
          subst hcon
          exact hod ((listIndexOf_getD locations e.origin a h1).symm.trans
            (listIndexOf_getD locations e.destination a h2))
        dsimp only
        split
        · show matUpdate st.1 a b (some (e.durationSeconds / 60)) i i = some 0
          unfold matUpdate
          by_cases hia : i = a ∧ i = b
          · exact absurd (hia.1 ▸ hia.2) hab
          · rw [if_neg hia]
            exact h
        · exact h
      · exact h
    · exact h

/-! ## Claim C10 — `_process_mode` is monotone and zeroes the diagonal -/

theorem cachePass_matLe (locations : List String) (googleMode : String)
    (cache : Cache) (now : Int) (st : Mat × ModeMat) :
    matLe (cachePass locations googleMode cache now st).1 st.1 :=
  foldl_matLe Prod.fst (cacheStep locations googleMode cache now)
    (cacheStep_matLe locations googleMode cache now) (pairList locations.length) st

theorem apiFold_matLe (locations : List String) (appMode googleMode : String)
    (now : Int) (l : List ApiEntry) (st : Mat × ModeMat × Cache) :
    matLe ((l.foldl (apiStep locations appMode googleMode now) st)).1 st.1 :=
  foldl_matLe Prod.fst (apiStep locations appMode googleMode now)
    (apiStep_matLe locations appMode googleMode now) l st

/-- Claim C10: each call to `_process_mode` is monotone non-increasing
on the shared minimum-duration matrix — every entry after the call is at
most the entry before it (in the order with `inf` on top) — and every
diagonal entry of the `n × n` matrix equals 0 after the call. -/
theorem processMode_monotone_and_diag (locations : List String) (mode : String)
    (now : Int) (api : List ApiEntry) (fm : Mat) (mm : ModeMat) (cache : Cache) :
    (∀ i j, ole ((processMode locations mode now api fm mm cache).1 i j) (fm i j)) ∧
    (∀ i, i < locations.length →
      (processMode locations mode now api fm mm cache).1 i i = some 0) := by
  have hcp : matLe
      (cachePass locations ((modeMapping mode).getD "driving") cache now (fm, mm)).1 fm :=
    cachePass_matLe locations ((modeMapping mode).getD "driving") cache now (fm, mm)
  constructor
  · intro i j
    unfold processMode
    dsimp only
    split
    · exact ole_trans
        (apiFold_matLe locations mode ((modeMapping mode).getD "driving") now api _ i j)
        (hcp i j)
    · exact hcp i j
  · intro i hi
    have hdiag1 :
        (cachePass locations ((modeMapping mode).getD "driving") cache now (fm, mm)).1 i i =
          some 0 := by
      unfold cachePass
      exact cacheFold_diag locations ((modeMapping mode).getD "driving") cache now i
        (pairList locations.length) (fm, mm)
        (Or.inl ((pairList_mem locations.length i i).mpr ⟨hi, hi⟩))
    unfold processMode
    dsimp only
    split
    · exact foldl_preserve (fun st : Mat × ModeMat × Cache => st.1 i i = some 0)
        (apiStep locations mode ((modeMapping mode).getD "driving") now)
        (fun st e hp =>
          apiStep_diag_preserve locations mode ((modeMapping mode).getD "driving") now st e i hp)
        api _ hdiag1
    · exact hdiag1

/-- Claim C10 witness. -/
theorem processMode_monotone_and_diag_witness :
    ole ((processMode ["A"] "car" 0 [] (fun _ _ => none) (fun _ _ => "") emptyCache).1 0 1)
      ((fun _ _ => (none : Option Nat)) 0 1) ∧
    (processMode ["A"] "car" 0 [] (fun _ _ => none) (fun _ _ => "") emptyCache).1 0 0 =
      some 0 :=
  ⟨(processMode_monotone_and_diag ["A"] "car" 0 [] (fun _ _ => none)
      (fun _ _ => "") emptyCache).1 0 1,
   (processMode_monotone_and_diag ["A"] "car" 0 [] (fun _ _ => none)
      (fun _ _ => "") emptyCache).2 0 (by decide)⟩

/-! ## Claim C5 — gap filling in `build_distance_matrix` -/

theorem cacheStep_empty_offdiag (locations : List String) (gm : String) (now : Int)
    (st : Mat × ModeMat) (p : Nat × Nat) (i j : Nat) (hij : i ≠ j) :
    (cacheStep locations gm emptyCache now st p).1 i j = st.1 i j := by
  unfold cacheStep
  by_cases hdiag : p.1 = p.2
  · rw [if_pos hdiag]
    show matUpdate st.1 p.1 p.2 (some 0) i j = st.1 i j
    unfold matUpdate
    rw [if_neg]
    rintro ⟨rfl, rfl⟩
    exact hij hdiag
  · rw [if_neg hdiag]
    rfl

theorem cacheFold_empty_offdiag (locations : List String) (gm : String) (now : Int)
    (i j : Nat) (hij : i ≠ j) :
    ∀ (l : List (Nat × Nat)) (st : Mat × ModeMat),
      (l.foldl (cacheStep locations gm emptyCache now) st).1 i j = st.1 i j := by
  intro l
  induction l with
  | nil => intro st; rfl
  | cons p rest ih =>
    intro st
    rw [List.foldl_cons, ih, cacheStep_empty_offdiag locations gm now st p i j hij]

theorem processMode_empty_offdiag (locations : List String) (mode : String) (now : Int)
    (fm : Mat) (mm : ModeMat) (i j : Nat) (hij : i ≠ j) :
    (processMode locations mode now [] fm mm emptyCache).1 i j = fm i j := by
  unfold processMode
  dsimp only
  split
  · simp only [List.foldl_nil]
    unfold cachePass
    exact cacheFold_empty_offdiag locations ((modeMapping mode).getD "driving") now i j hij
      (pairList locations.length) (fm, mm)
  · unfold cachePass
    exact cacheFold_empty_offdiag locations ((modeMapping mode).getD "driving") now i j hij
      (pairList locations.length) (fm, mm)

theorem processMode_empty_cache (locations : List String) (mode : String) (now : Int)
    (fm : Mat) (mm : ModeMat) :
    (processMode locations mode now [] fm mm emptyCache).2.2 = emptyCache := by
  unfold processMode
  dsimp only
  split <;> rfl

/-- With no cached and no provider data, every off-diagonal entry of the
returned matrix is still infinite: the `inf → 999999` replacement of
`build_distance_matrix` is dead code behind the `return`, and no
airport/triangle/cap gap-filling exists in the builder. -/
theorem buildDistanceMatrix_empty_offdiag (locations modes : List String) (now : Int)
    (i j : Nat) (hij : i ≠ j) :
    (buildDistanceMatrix locations modes emptyCache now emptyApi).1 i j = none := by
  unfold buildDistanceMatrix
  dsimp only
  rw [if_neg (fun hc => hij hc.1)]
  have hstep : ∀ (st : Mat × ModeMat × Cache) (m : String),
      (st.2.2 = emptyCache ∧ st.1 i j = none) →
      ((processMode locations m now (emptyApi m) st.1 st.2.1 st.2.2).2.2 = emptyCache ∧
       (processMode locations m now (emptyApi m) st.1 st.2.1 st.2.2).1 i j = none) := by
    intro st m h
    obtain ⟨hcache, hval⟩ := h
    rw [hcache]
    have hapi : emptyApi m = [] := rfl
    rw [hapi]
    refine ⟨processMode_empty_cache locations m now st.1 st.2.1, ?_⟩
    rw [processMode_empty_offdiag locations m now st.1 st.2.1 i j hij]
    exact hval
  exact (foldl_preserve
    (fun st : Mat × ModeMat × Cache => st.2.2 = emptyCache ∧ st.1 i j = none)
    (fun st m => processMode locations m now (emptyApi m) st.1 st.2.1 st.2.2)
    hstep modes ((fun _ _ => none : Mat), (fun _ _ => "" : ModeMat), emptyCache)
    ⟨rfl, rfl⟩).2

/-- Claim C5 counterexample: with two locations and no provider data the
returned matrix entry (0,1) is infinite, not finite as the claim
asserts — no airport/triangle/capped-constant estimate is applied. -/
theorem buildDistanceMatrix_infinite_entry_counterexample :
    (buildDistanceMatrix ["A", "B"] ["car"] emptyCache 0 emptyApi).1 0 1 = none :=
  buildDistanceMatrix_empty_offdiag ["A", "B"] ["car"] 0 0 1 (by decide)

/-- Claim C5 (amended): the diagonal of the returned matrix is always 0
and the build never aborts on missing provider data, but a pair still
unresolved after all modes is returned as infinity: the airport
heuristic, the triangle-inequality minimum and the capped fallback
constant described by the spec are not applied (the replacement block
sits after the `return` and is unreachable). -/
theorem buildDistanceMatrix_diag_and_gaps :
    (∀ (locations modes : List String) (cache : Cache) (now : Int)
        (api : String → List ApiEntry) (i : Nat), i < locations.length →
      (buildDistanceMatrix locations modes cache now api).1 i i = some 0) ∧
    (∀ (locations modes : List String) (now : Int) (i j : Nat), i ≠ j →
      (buildDistanceMatrix locations modes emptyCache now emptyApi).1 i j = none) := by
  constructor
  · intro locations modes cache now api i hi
    unfold buildDistanceMatrix
    dsimp only
    rw [if_pos ⟨rfl, hi⟩]
  · intro locations modes now i j hij
    exact buildDistanceMatrix_empty_offdiag locations modes now i j hij

/-- Claim C5 witness. -/
theorem buildDistanceMatrix_diag_and_gaps_witness :
    (buildDistanceMatrix ["A", "B"] ["car"] emptyCache 0 emptyApi).1 0 0 = some 0 ∧
    (buildDistanceMatrix ["A", "B"] ["car"] emptyCache 0 emptyApi).1 1 0 = none :=
  ⟨buildDistanceMatrix_diag_and_gaps.1 ["A", "B"] ["car"] emptyCache 0 emptyApi 0 (by decide),
   buildDistanceMatrix_diag_and_gaps.2 ["A", "B"] ["car"] 0 1 0 (by decide)⟩

/-! ## Scheduler lemmas -/

theorem maxEnd_bound (acc : List SlotM) (s : SlotM) (hs : s ∈ acc) :
    ∃ v, maxEnd acc = some v ∧ s.stop ≤ v := by
  induction acc with
  | nil => simp at hs
  | cons a rest ih =>
    rcases List.mem_cons.mp hs with rfl | hmem
    · cases hm : maxEnd rest with
      | none => exact ⟨s.stop, by simp [maxEnd, hm], le_refl _⟩
      | some v => exact ⟨max s.stop v, by simp [maxEnd, hm], le_max_left _ _⟩
    · obtain ⟨v, hv, hle⟩ := ih hmem
      exact ⟨max a.stop v, by simp [maxEnd, hv], hle.trans (le_max_right _ _)⟩

theorem fixedSlots_shape (tasks : List TaskM) :
    ∀ x ∈ fixedSlots tasks, x.isFixed = true ∧ x.node = none := by
  intro x hx
  unfold fixedSlots at hx
  rw [List.mem_filterMap] at hx
  obtain ⟨t, _, hft⟩ := hx
  cases hcal : t.sourceCalendar <;> cases hst : t.startTime <;> cases het : t.endTime <;>
    rw [hcal, hst, het] at hft <;> simp_all
  obtain ⟨rfl⟩ := hft
  exact ⟨rfl, rfl⟩

theorem pairwise_slotR_of_all_fixed (l : List SlotM)
    (h : ∀ s ∈ l, s.isFixed = true) : l.Pairwise slotR := by
  induction l with
  | nil => exact List.Pairwise.nil
  | cons a rest ih =>
    refine List.Pairwise.cons ?_ (ih fun s hs => h s (List.mem_cons_of_mem a hs))
    intro b hb hbf
    have hbt := h b (List.mem_cons_of_mem a hb)
    rw [hbt] at hbf
    exact absurd hbf (by decide)

/-- A flexible-loop step only appends. -/
theorem flexStep_mem_mono (nLoc : Nat) (durations startTimes travelTimes : List Nat)
    (acc : List SlotM) (p : Nat × Nat) (s : SlotM) (hs : s ∈ acc) :
    s ∈ flexStep nLoc durations startTimes travelTimes acc p := by
  unfold flexStep
  by_cases hskip : p.2 = 0 ∨ p.2 = nLoc - 1
  · rw [if_pos hskip]
    exact hs
  · rw [if_neg hskip]
    exact List.mem_append_left _ hs

/-- Every member of the list after a flexible-loop step either was
there before or is the newly appended flexible slot for a non-depot
route node, whose end is its start plus the node's duration. -/
theorem flexStep_forall (nLoc : Nat) (durations startTimes travelTimes : List Nat)
    (Q : SlotM → Prop)
    (hnew : ∀ (idx : Nat) (su : Int), ¬(idx = 0 ∨ idx = nLoc - 1) →
      Q ⟨false, some idx, su, su + (durations.getD idx 0 : Int)⟩)
    (acc : List SlotM) (p : Nat × Nat) (hacc : ∀ s ∈ acc, Q s) :
    ∀ s ∈ flexStep nLoc durations startTimes travelTimes acc p, Q s := by
  intro s hs
  unfold flexStep at hs
  by_cases hskip : p.2 = 0 ∨ p.2 = nLoc - 1
  · rw [if_pos hskip] at hs
    exact hacc s hs
  · rw [if_neg hskip] at hs
    rcases List.mem_append.mp hs with h | h
    · exact hacc s h
    · rw [List.mem_singleton] at h
      subst h
      exact hnew p.2 _ hskip

/-- A flexible-loop step preserves ordered disjointness: under the push
precondition of line 434, the appended slot starts at or after the
latest end among all earlier slots plus travel and buffer. -/
theorem flexStep_pairwise (nLoc : Nat) (durations startTimes travelTimes : List Nat)
    (acc : List SlotM) (p : Nat × Nat)
    (hcond : ¬(p.2 = 0 ∨ p.2 = nLoc - 1) →
      0 < p.1 ∧ travelTimes ≠ [] ∧ p.1 - 1 < travelTimes.length)
    (hacc : acc.Pairwise slotR) :
    (flexStep nLoc durations startTimes travelTimes acc p).Pairwise slotR := by
  unfold flexStep
  by_cases hskip : p.2 = 0 ∨ p.2 = nLoc - 1
  · rw [if_pos hskip]
    exact hacc
  · rw [if_neg hskip]
    obtain ⟨hi, htt, hlenp⟩ := hcond hskip
    rw [List.pairwise_append]
    refine ⟨hacc, List.pairwise_singleton _ _, ?_⟩
    intro a ha b hb
    rw [List.mem_singleton] at hb
    subst hb
    intro _
    obtain ⟨v, hv, hle⟩ := maxEnd_bound acc a ha
    show a.stop ≤ _
    dsimp only
    rw [if_pos ⟨hi, htt, hlenp⟩, hv]
    dsimp only
    split
    · omega
    · rename_i hnotlt
      omega

/-- Folding the flexible loop preserves ordered disjointness when every
processed pair meets the push precondition. -/
theorem flexFold_pairwise (nLoc : Nat) (durations startTimes travelTimes : List Nat) :
    ∀ (l : List (Nat × Nat)) (acc : List SlotM),
      (∀ p ∈ l, ¬(p.2 = 0 ∨ p.2 = nLoc - 1) →
        0 < p.1 ∧ travelTimes ≠ [] ∧ p.1 - 1 < travelTimes.length) →
      acc.Pairwise slotR →
      (l.foldl (flexStep nLoc durations startTimes travelTimes) acc).Pairwise slotR := by
  intro l
  induction l with
  | nil =>
    intro acc _ hacc
    exact hacc
  | cons p rest ih =>
    intro acc hcond hacc
    rw [List.foldl_cons]
    exact ih _ (fun q hq => hcond q (List.mem_cons_of_mem p hq))
      (flexStep_pairwise nLoc durations startTimes travelTimes acc p
        (hcond p (List.mem_cons_self p rest)) hacc)

/-! ## Claim C2 — pairwise non-overlap of the produced slots -/

/-- Claim C2 counterexample: two fixed calendar tasks with windows
540-600 and 560-620 are both scheduled at their original times by the
same successful run, and the two produced slots overlap. -/
theorem runSlots_fixed_overlap_counterexample :
    slotsOverlap
      ((runSlots [⟨true, some 540, some 600⟩, ⟨true, some 560, some 620⟩] 2 [0, 1]
          [480, 480] [0, 0] [0]).getD 0 ⟨false, none, 0, 0⟩)
      ((runSlots [⟨true, some 540, some 600⟩, ⟨true, some 560, some 620⟩] 2 [0, 1]
          [480, 480] [0, 0] [0]).getD 1 ⟨false, none, 0, 0⟩) := by
  unfold slotsOverlap
  decide

/-- Claim C2 (amended): non-overlap holds for every pair of slots of
which the later-created one is flexible — each flexible slot starts at
or after the end of every slot created before it (given the solver
route starts at the depot and one travel time per route segment).  Two
fixed slots keep their original calendar times and may overlap. -/
theorem runSlots_flexible_pairwise_disjoint (tasks : List TaskM) (nLoc : Nat)
    (route startTimes durations travelTimes : List Nat)
    (h0 : route.head? = some 0)
    (hlen : travelTimes.length = route.length - 1) :
    (runSlots tasks nLoc route startTimes durations travelTimes).Pairwise slotR := by
  unfold runSlots
  refine flexFold_pairwise nLoc durations startTimes travelTimes route.enum
    (fixedSlots tasks) ?_ ?_
  · intro p hp hskip
    have hg : route[p.1]? = some p.2 := List.mem_enum_iff_getElem?.mp hp
    have hlt : p.1 < route.length := by
      rcases List.getElem?_eq_some_iff.mp hg with ⟨h, _⟩
      exact h
    have hp1 : 0 < p.1 := by
      rcases Nat.eq_zero_or_pos p.1 with hz | h
      · rw [hz] at hg
        rw [← List.head?_eq_getElem?, h0] at hg
        exact absurd (Or.inl (Option.some.inj hg).symm) hskip
      · exact h
    refine ⟨hp1, ?_, ?_⟩
    · refine List.length_pos.mp ?_
      rw [hlen]
      omega
    · rw [hlen]
      omega
  · exact pairwise_slotR_of_all_fixed _ (fun s hs => (fixedSlots_shape tasks s hs).1)

/-- Claim C2 witness. -/
theorem runSlots_flexible_pairwise_disjoint_witness :
    (runSlots [⟨true, some 540, some 600⟩] 3 [0, 1, 2] [480, 480, 500] [0, 30, 0]
        [0, 0]).Pairwise slotR :=
  runSlots_flexible_pairwise_disjoint [⟨true, some 540, some 600⟩] 3 [0, 1, 2]
    [480, 480, 500] [0, 30, 0] [0, 0] rfl rfl

/-! ## Claim C3 — fixed tasks keep their original times -/

/-- Claim C3: every fixed-priority task (calendar-sourced with recorded
original start and end) yields a slot whose scheduled start and end
equal the original ones.  The code never reports a HardInfeasibility,
so the slot unconditionally equals the original window, which satisfies
the claim's weaker "unless reported" form. -/
theorem runSlots_fixed_keeps_original_times (tasks : List TaskM) (nLoc : Nat)
    (route startTimes durations travelTimes : List Nat) (t : TaskM) (s e : Int)
    (ht : t ∈ tasks) (hcal : t.sourceCalendar = true)
    (hs : t.startTime = some s) (he : t.endTime = some e) :
    (⟨true, none, s, e⟩ : SlotM) ∈
      runSlots tasks nLoc route startTimes durations travelTimes := by
  have hmem : (⟨true, none, s, e⟩ : SlotM) ∈ fixedSlots tasks := by
    unfold fixedSlots
    rw [List.mem_filterMap]
    refine ⟨t, ht, ?_⟩
    rw [hcal, hs, he]
  unfold runSlots
  exact foldl_preserve (fun acc => (⟨true, none, s, e⟩ : SlotM) ∈ acc)
    (flexStep nLoc durations startTimes travelTimes)
    (fun acc p hp => flexStep_mem_mono nLoc durations startTimes travelTimes acc p _ hp)
    route.enum _ hmem

/-- Claim C3 witness. -/
theorem runSlots_fixed_keeps_original_times_witness :
    (⟨true, none, 540, 600⟩ : SlotM) ∈
      runSlots [⟨true, some 540, some 600⟩] 2 [0, 1] [480, 480] [0, 0] [0] :=
  runSlots_fixed_keeps_original_times [⟨true, some 540, some 600⟩] 2 [0, 1]
    [480, 480] [0, 0] [0] ⟨true, some 540, some 600⟩ 540 600
    (List.mem_singleton.mpr rfl) rfl rfl rfl

/-! ## Claim C6 — no 23:59 clamping -/

/-- Claim C6 counterexample: a fixed task ending 23:50 pushes the
flexible task at route position 1 to start at 00:05 past midnight
(minute 1445) and end at minute 1475 — past 23:59 (minute 1439) of the
planning day, with no clamp to end = 23:59. -/
theorem runSlots_past_midnight_counterexample :
    ((runSlots [⟨true, some 1380, some 1430⟩] 3 [0, 1, 2] [480, 480, 500] [0, 30, 0]
        [0, 0]).getD 1 ⟨false, none, 0, 0⟩).stop = 1475 ∧
    ¬ ((runSlots [⟨true, some 1380, some 1430⟩] 3 [0, 1, 2] [480, 480, 500] [0, 30, 0]
        [0, 0]).getD 1 ⟨false, none, 0, 0⟩).stop ≤ 1439 := by
  decide

/-- Claim C6 (amended): no clamping to 23:59 is performed and no soft
violation is recorded; a flexible slot pushed late keeps exactly its
duration — its end equals its start plus the route node's duration —
and may extend past 23:59 of the planning day into the next. -/
theorem runSlots_flexible_duration_preserved (tasks : List TaskM) (nLoc : Nat)
    (route startTimes durations travelTimes : List Nat) :
    ∀ s ∈ runSlots tasks nLoc route startTimes durations travelTimes,
      s.isFixed = false →
      ∃ k, s.node = some k ∧ s.stop = s.start + (durations.getD k 0 : Int) := by
  unfold runSlots
  refine foldl_preserve
    (fun acc => ∀ s ∈ acc, s.isFixed = false →
      ∃ k, s.node = some k ∧ s.stop = s.start + (durations.getD k 0 : Int))
    (flexStep nLoc durations startTimes travelTimes) ?_ route.enum _ ?_
  · intro acc p hacc
    refine flexStep_forall nLoc durations startTimes travelTimes _ ?_ acc p hacc
    intro idx su _ _
    exact ⟨idx, rfl, rfl⟩
  · intro s hs hflex
    rw [(fixedSlots_shape tasks s hs).1] at hflex
    exact absurd hflex (by decide)

/-- Claim C6 witness. -/
theorem runSlots_flexible_duration_preserved_witness :
    ∃ k, ((runSlots [⟨true, some 1380, some 1430⟩] 3 [0, 1, 2] [480, 480, 500]
        [0, 30, 0] [0, 0]).getD 1 ⟨false, none, 0, 0⟩).node = some k ∧
      ((runSlots [⟨true, some 1380, some 1430⟩] 3 [0, 1, 2] [480, 480, 500]
        [0, 30, 0] [0, 0]).getD 1 ⟨false, none, 0, 0⟩).stop =
      ((runSlots [⟨true, some 1380, some 1430⟩] 3 [0, 1, 2] [480, 480, 500]
        [0, 30, 0] [0, 0]).getD 1 ⟨false, none, 0, 0⟩).start +
        (([0, 30, 0] : List Nat).getD k 0 : Int) :=
  runSlots_flexible_duration_preserved [⟨true, some 1380, some 1430⟩] 3 [0, 1, 2]
    [480, 480, 500] [0, 30, 0] [0, 0]
    ((runSlots [⟨true, some 1380, some 1430⟩] 3 [0, 1, 2] [480, 480, 500]
        [0, 30, 0] [0, 0]).getD 1 ⟨false, none, 0, 0⟩)
    (by decide) (by decide)

/-! ## Claim C8 — the depot never yields a slot -/

/-- Claim C8: no slot is created for either depot index — every slot
tied to a route node visits a node that is neither 0 nor
`len(locations) - 1` (fixed calendar slots are created from tasks, not
route nodes, and carry no node). -/
theorem runSlots_no_depot_slots (tasks : List TaskM) (nLoc : Nat)
    (route startTimes durations travelTimes : List Nat) :
    ∀ s ∈ runSlots tasks nLoc route startTimes durations travelTimes,
      ∀ k, s.node = some k → k ≠ 0 ∧ k ≠ nLoc - 1 := by
  unfold runSlots
  refine foldl_preserve
    (fun acc => ∀ s ∈ acc, ∀ k, s.node = some k → k ≠ 0 ∧ k ≠ nLoc - 1)
    (flexStep nLoc durations startTimes travelTimes) ?_ route.enum _ ?_
  · intro acc p hacc
    refine flexStep_forall nLoc durations startTimes travelTimes _ ?_ acc p hacc
    intro idx su hskip k hk
    obtain rfl : idx = k := Option.some.inj hk
    push_neg at hskip
    exact hskip
  · intro s hs k hk
    rw [(fixedSlots_shape tasks s hs).2] at hk
    exact absurd hk (by simp)

/-- Claim C8 witness. -/
theorem runSlots_no_depot_slots_witness :
    ((runSlots [⟨true, some 540, some 600⟩] 3 [0, 1, 2] [480, 480, 500] [0, 30, 0]
        [0, 0]).getD 1 ⟨false, none, 0, 0⟩).node = some 1 ∧
    (1 : Nat) ≠ 0 ∧ (1 : Nat) ≠ 3 - 1 :=
  ⟨by decide,
   runSlots_no_depot_slots [⟨true, some 540, some 600⟩] 3 [0, 1, 2] [480, 480, 500]
     [0, 30, 0] [0, 0]
     ((runSlots [⟨true, some 540, some 600⟩] 3 [0, 1, 2] [480, 480, 500] [0, 30, 0]
        [0, 0]).getD 1 ⟨false, none, 0, 0⟩)
     (by decide) 1 (by decide)⟩

end CalRoute
